import Mathlib

/-!
Verification of the quantitative finance and risk utilities of the
strategy-sim repository (`src/tools/financial_calculator.py` and
`src/tools/risk_modeler.py`), shallowly embedded in Lean.

Python floats are modelled as exact rationals (`ℚ`); raised Python
exceptions are modelled by `Except Err`.  Randomness (the numpy global
generator) is modelled by an abstract `Sampler` that turns a seed into a
generator state and a state into a drawn value plus successor state, and
the square root inside `np.sqrt`/`np.std` is abstracted as a function parameter
`sqrtQ : ℚ → ℚ` (its exact float value is irrelevant to every property
proved here).
-/

deriving instance DecidableEq for Except

namespace StrategySim

/-- Python exception kinds raised by the embedded code: `ValueError`
(called `InvalidArgument` by the spec), `KeyError` (missing dictionary key),
`ZeroDivisionError` (float division by zero) and `IndexError` (raised by
`np.percentile` on an empty sample). -/
inductive Err where
  | invalidArgument
  | keyError
  | zeroDivision
  | indexError
deriving DecidableEq

/-! ## financial_calculator.py -/

/-- The summation loop of `calculate_npv` (financial_calculator.py lines
105-107): `npv += cf / ((1 + discount_rate) ** i)` over
`enumerate(cash_flows)`, starting at index `i` with accumulator `acc`.
A zero denominator is a Python `ZeroDivisionError`. -/
def npv_loop (discount_rate : ℚ) : ℕ → List ℚ → ℚ → Except Err ℚ
  | _, [], acc => .ok acc
  | i, cf :: rest, acc =>
    if (1 + discount_rate) ^ i = 0 then .error .zeroDivision
    else npv_loop discount_rate (i + 1) rest (acc + cf / (1 + discount_rate) ^ i)

/-- `calculate_npv` (financial_calculator.py lines 91-109): rejects an
empty cash-flow list, then sums `cf / (1+rate)^i`. -/
def calculate_npv (cash_flows : List ℚ) (discount_rate : ℚ) : Except Err ℚ :=
  if cash_flows = [] then .error .invalidArgument
  else npv_loop discount_rate 0 cash_flows 0

/-- The mathematical value computed by the `calculate_npv` loop:
`Σ cf[j] / (1+rate)^(i+j)`. -/
def npv_sum (discount_rate : ℚ) : ℕ → List ℚ → ℚ
  | _, [] => 0
  | i, cf :: rest => cf / (1 + discount_rate) ^ i + npv_sum discount_rate (i + 1) rest

lemma npv_loop_ok (discount_rate : ℚ) (h : 1 + discount_rate ≠ 0) :
    ∀ (l : List ℚ) (i : ℕ) (a : ℚ),
      npv_loop discount_rate i l a = .ok (a + npv_sum discount_rate i l) := by
  intro l
  induction l with
  | nil => intro i a; simp [npv_loop, npv_sum]
  | cons cf rest ih =>
    intro i a
    have hp : (1 + discount_rate) ^ i ≠ 0 := pow_ne_zero _ h
    rw [npv_loop, npv_sum, if_neg (by exact hp), ih]
    congr 1
    ring

/-- Value returned by `calculate_profitability_index`: a finite float or
the float-infinity sentinel. -/
inductive PIValue where
  | fin (q : ℚ)
  | inf
deriving DecidableEq

/-- `calculate_profitability_index` (financial_calculator.py lines
208-228): `0.0` on an empty list, the float-infinity when the period-0 flow
is zero, otherwise the discounted value of flows from period 1 onward
divided by `abs(cash_flows[0])`. -/
def calculate_profitability_index (cash_flows : List ℚ) (discount_rate : ℚ) :
    Except Err PIValue :=
  match cash_flows with
  | [] => .ok (.fin 0)
  | cf0 :: rest =>
    if |cf0| = 0 then .ok .inf
    else do
      let pv ← npv_loop discount_rate 1 rest 0
      .ok (.fin (pv / |cf0|))

/-- `FinancialRatios` (financial_calculator.py lines 51-69). -/
structure FinancialRatios where
  revenue : ℚ
  costs : ℚ
  gross_margin : ℚ
  operating_margin : ℚ
  net_margin : ℚ
  roe : Option ℚ
  roa : Option ℚ
  debt_to_equity : Option ℚ
  current_ratio : Option ℚ
deriving DecidableEq

/-- The `validate_margins` pydantic validator (financial_calculator.py
lines 64-69): a margin outside `[-100, 100]` is a `ValueError`. -/
def validate_margins (v : ℚ) : Except Err ℚ :=
  if v < -100 ∨ 100 < v then .error .invalidArgument else .ok v

lemma validate_margins_ok {v w : ℚ} (h : validate_margins v = .ok w) :
    -100 ≤ w ∧ w ≤ 100 := by
  unfold validate_margins at h
  split at h
  · exact absurd h (by simp)
  · rename_i hcond
    push_neg at hcond
    cases h
    exact ⟨hcond.1, hcond.2⟩

/-- `calculate_financial_ratios` (financial_calculator.py lines 315-368):
computes margins (zero when revenue is not positive) and optional ratios,
then constructs `FinancialRatios`, whose validator rejects margins
outside `[-100, 100]`. -/
def calculate_financial_ratios (revenue cost_of_goods_sold operating_expenses
    interest_expense tax_rate : ℚ)
    (equity assets debt current_assets current_liabilities : Option ℚ) :
    Except Err FinancialRatios :=
  let gross_profit := revenue - cost_of_goods_sold
  let operating_income := gross_profit - operating_expenses
  let net_income := operating_income - interest_expense - operating_income * tax_rate
  let gross_margin := if 0 < revenue then gross_profit / revenue * 100 else 0
  let operating_margin := if 0 < revenue then operating_income / revenue * 100 else 0
  let net_margin := if 0 < revenue then net_income / revenue * 100 else 0
  let roe := match equity with
    | some e => if 0 < e then some (net_income / e * 100) else none
    | none => none
  let roa := match assets with
    | some a => if 0 < a then some (net_income / a * 100) else none
    | none => none
  let dte := match equity, debt with
    | some e, some d => if 0 < e then some (d / e) else none
    | _, _ => none
  let cr := match current_liabilities, current_assets with
    | some cl, some ca => if 0 < cl then some (ca / cl) else none
    | _, _ => none
  do
    let gm ← validate_margins gross_margin
    let om ← validate_margins operating_margin
    let nm ← validate_margins net_margin
    .ok { revenue := revenue, costs := cost_of_goods_sold + operating_expenses,
          gross_margin := gm, operating_margin := om, net_margin := nm,
          roe := roe, roa := roa, debt_to_equity := dte, current_ratio := cr }

lemma ratios_bind_ok {A B C : ℚ} {k : ℚ → ℚ → ℚ → FinancialRatios}
    {r : FinancialRatios}
    (h : (do
            let gm ← validate_margins A
            let om ← validate_margins B
            let nm ← validate_margins C
            Except.ok (k gm om nm) : Except Err FinancialRatios) = .ok r) :
    ∃ gm om nm, validate_margins A = .ok gm ∧ validate_margins B = .ok om ∧
      validate_margins C = .ok nm ∧ r = k gm om nm := by
  rcases hA : validate_margins A with e | gm <;> rw [hA] at h
  · exact absurd h (by simp [Except.bind, Bind.bind])
  rcases hB : validate_margins B with e | om <;> rw [hB] at h
  · exact absurd h (by simp [Except.bind, Bind.bind])
  rcases hC : validate_margins C with e | nm <;> rw [hC] at h
  · exact absurd h (by simp [Except.bind, Bind.bind])
  refine ⟨gm, om, nm, rfl, rfl, rfl, ?_⟩
  simpa [Except.bind, Bind.bind] using h.symm

/-! ## Claims C1, C5, C9, C10 (financial calculator) -/

/-- C1: the spec (and the repository test
`test_npv_negative_discount_rate`) requires `calculate_npv` to raise
`InvalidArgument` for a negative discount rate, but the code performs no
rate check: at the very input used by that test, `([-100000, 30000,
35000, 40000], -0.05)`, it returns `116700000/6859 ≈ 17016.0` instead of
raising. -/
theorem calculate_npv_negative_rate_returns_value :
  calculate_npv [-100000, 30000, 35000, 40000] (-(5/100)) = .ok (116700000/6859) := by
  with_unfolding_all rfl

/-- C5: for a cash-flow series whose period-0 flow is a (nonzero) outflow
and a positive discount rate, the profitability index exceeds 1 exactly
when the NPV of the same series at the same rate is positive. -/
theorem profitability_index_gt_one_iff_npv_pos
    (cf0 : ℚ) (rest : List ℚ) (discount_rate : ℚ)
    (hout : cf0 < 0) (hrate : 0 < discount_rate) :
    ∃ p n, calculate_profitability_index (cf0 :: rest) discount_rate = .ok (.fin p) ∧
      calculate_npv (cf0 :: rest) discount_rate = .ok n ∧ (1 < p ↔ 0 < n) := by
  have hden : (1 : ℚ) + discount_rate ≠ 0 := by linarith
  have hneg : (0 : ℚ) < -cf0 := by linarith
  have habs : |cf0| = -cf0 := abs_of_neg hout
  have hne : ¬ (|cf0| = 0) := by rw [habs]; exact ne_of_gt hneg
  refine ⟨npv_sum discount_rate 1 rest / |cf0|, cf0 + npv_sum discount_rate 1 rest, ?_, ?_, ?_⟩
  · simp only [calculate_profitability_index, if_neg hne, npv_loop_ok discount_rate hden,
      Except.bind, bind, zero_add]
  · have : calculate_npv (cf0 :: rest) discount_rate = npv_loop discount_rate 0 (cf0 :: rest) 0 := by
      simp [calculate_npv]
    rw [this, npv_loop_ok discount_rate hden, npv_sum]
    norm_num
  · rw [habs, lt_div_iff₀ hneg, one_mul]
    constructor <;> intro h <;> linarith

theorem profitability_index_gt_one_iff_npv_pos_witness :
  ((-2 : ℚ) < 0) ∧ ((0 : ℚ) < 1/2) ∧
  (∃ p n, calculate_profitability_index [-2, 3] (1/2) = .ok (.fin p) ∧
    calculate_npv [-2, 3] (1/2) = .ok n ∧ (1 < p ↔ 0 < n)) :=
⟨by norm_num, by norm_num,
  profitability_index_gt_one_iff_npv_pos (-2) [3] (1/2) (by norm_num) (by norm_num)⟩

/-- C9 (amended): whenever `calculate_financial_ratios` returns a result
(i.e. its pydantic validator accepts the record), the gross, operating
and net margin percentages all lie in `[-100, 100]`.  Out-of-range
margins are rejected with a `ValueError`, not clamped (see
`financial_ratios_rejects_out_of_range_margins`). -/
theorem financial_ratios_margins_bounded
    (revenue cogs opex interest tax : ℚ)
    (equity assets debt ca cl : Option ℚ) (r : FinancialRatios)
    (h : calculate_financial_ratios revenue cogs opex interest tax
          equity assets debt ca cl = .ok r) :
    (-100 ≤ r.gross_margin ∧ r.gross_margin ≤ 100) ∧
    (-100 ≤ r.operating_margin ∧ r.operating_margin ≤ 100) ∧
    (-100 ≤ r.net_margin ∧ r.net_margin ≤ 100) := by
  obtain ⟨gm, om, nm, hg, ho, hn, hr⟩ := ratios_bind_ok h
  subst hr
  exact ⟨validate_margins_ok hg, validate_margins_ok ho, validate_margins_ok hn⟩

theorem financial_ratios_margins_bounded_witness :
  calculate_financial_ratios 100 40 20 0 0 none none none none none =
    .ok { revenue := 100, costs := 60, gross_margin := 60, operating_margin := 40,
          net_margin := 40, roe := none, roa := none, debt_to_equity := none,
          current_ratio := none } ∧
  ((-100 ≤ (60 : ℚ) ∧ (60 : ℚ) ≤ 100) ∧ (-100 ≤ (40 : ℚ) ∧ (40 : ℚ) ≤ 100) ∧
    (-100 ≤ (40 : ℚ) ∧ (40 : ℚ) ≤ 100)) := by
  have h : calculate_financial_ratios 100 40 20 0 0 none none none none none =
      .ok { revenue := 100, costs := 60, gross_margin := 60, operating_margin := 40,
            net_margin := 40, roe := none, roa := none, debt_to_equity := none,
            current_ratio := none } := by
    with_unfolding_all rfl
  exact ⟨h, financial_ratios_margins_bounded 100 40 20 0 0 none none none none none _ h⟩

/-- C9 (counterexample to the claim as stated): with `revenue = 100`,
`cost_of_goods_sold = 300` the gross margin would be `-200%`, and
`calculate_financial_ratios` raises a `ValueError` rather than returning
a (clamped) result, so the operation does not return a result with
margins in `[-100, 100]` for every input. -/
theorem financial_ratios_rejects_out_of_range_margins :
  calculate_financial_ratios 100 300 0 0 0 none none none none none =
    .error .invalidArgument := by
  with_unfolding_all rfl

/-- C10: `calculate_profitability_index` on an empty series returns `0.0`
without raising (whereas `calculate_npv` raises `ValueError` on the same
input), and the the float-infinity sentinel is returned exactly for a
non-empty series whose period-0 flow is `0`. -/
theorem profitability_index_empty_and_inf_sentinel :
  (∀ discount_rate : ℚ,
    calculate_profitability_index [] discount_rate = .ok (.fin 0)) ∧
  (∀ discount_rate : ℚ,
    calculate_npv [] discount_rate = .error .invalidArgument) ∧
  (∀ (cash_flows : List ℚ) (discount_rate : ℚ),
    calculate_profitability_index cash_flows discount_rate = .ok .inf ↔
      cash_flows ≠ [] ∧ cash_flows.head? = some 0) := by
  refine ⟨fun _ => rfl, fun _ => rfl, fun cash_flows discount_rate => ?_⟩
  cases cash_flows with
  | nil => simp [calculate_profitability_index]
  | cons cf0 rest =>
    simp only [calculate_profitability_index, List.head?_cons, ne_eq, reduceCtorEq,
      not_false_eq_true, true_and, Option.some.injEq]
    by_cases h0 : |cf0| = 0
    · simp [h0, abs_eq_zero.mp h0]
    · rw [if_neg h0]
      cases hl : npv_loop discount_rate 1 rest 0 with
      | error e =>
        simp only [hl, Except.bind, bind]
        constructor
        · intro hcontra; exact absurd hcontra (by simp)
        · intro hcf0; exact absurd (abs_eq_zero.mpr hcf0) h0
      | ok pv =>
        simp only [hl, Except.bind, bind]
        constructor
        · intro hcontra
          exact absurd hcontra (by simp)
        · intro hcf0; exact absurd (abs_eq_zero.mpr hcf0) h0

/-! ## risk_modeler.py : data model -/

/-- `ProbabilityDistribution` (risk_modeler.py lines 29-37). -/
inductive ProbabilityDistribution where
  | normal
  | uniform
  | triangular
  | beta
  | exponential
  | lognormal
deriving DecidableEq

/-- `ScenarioType` (risk_modeler.py lines 40-47). -/
inductive ScenarioType where
  | best_case
  | base_case
  | worst_case
  | stress_test
  | black_swan
deriving DecidableEq

/-- A Python `Dict[str, float]`, as an insertion-ordered association
list. -/
abbrev Params : Type := List (String × ℚ)

/-- `k in d` on a Python dict. -/
def contains_key (p : Params) (k : String) : Bool :=
  p.any (fun kv => kv.1 == k)

/-- `d.get(k)` on a Python dict. -/
def pget (p : Params) (k : String) : Option ℚ :=
  (p.find? (fun kv => kv.1 == k)).map (fun kv => kv.2)

/-- `d[k]` on a Python dict: a missing key is a `KeyError`. -/
def getParam (p : Params) (k : String) : Except Err ℚ :=
  match pget p k with
  | some v => .ok v
  | none => .error .keyError

/-- `d[k] = v` on a Python dict: replace in place, else append. -/
def pset (p : Params) (k : String) (v : ℚ) : Params :=
  if contains_key p k then
    p.map (fun kv => if kv.1 == k then (k, v) else kv)
  else p ++ [(k, v)]

/-- `RiskVariable` (risk_modeler.py lines 50-58).  The pydantic
construction-time validation lives in `mkRiskVariable` below. -/
structure RiskVariable where
  name : String
  description : String
  distribution : ProbabilityDistribution
  parameters : Params
  unit : Option String
  correlation_matrix : Option Params
deriving DecidableEq

/-- The `validate_parameters` pydantic validator (risk_modeler.py lines
60-75): only the normal, uniform and triangular kinds have their
parameter keys checked; every other kind passes unexamined. -/
def validate_parameters (distribution : ProbabilityDistribution) (v : Params) :
    Except Err Params :=
  match distribution with
  | .normal =>
    if ¬ contains_key v "mean" ∨ ¬ contains_key v "std" then .error .invalidArgument
    else .ok v
  | .uniform =>
    if ¬ contains_key v "min" ∨ ¬ contains_key v "max" then .error .invalidArgument
    else .ok v
  | .triangular =>
    if ¬ contains_key v "min" ∨ ¬ contains_key v "max" ∨ ¬ contains_key v "mode" then
      .error .invalidArgument
    else .ok v
  | _ => .ok v

/-- Constructing a `RiskVariable` (pydantic runs `validate_parameters` at
construction time). -/
def mkRiskVariable (name description : String)
    (distribution : ProbabilityDistribution) (parameters : Params)
    (unit : Option String) (correlation_matrix : Option Params) :
    Except Err RiskVariable := do
  let p ← validate_parameters distribution parameters
  .ok { name := name, description := description, distribution := distribution,
        parameters := p, unit := unit, correlation_matrix := correlation_matrix }

/-- Abstraction of the numpy global random generator: `init s` is the
state after `np.random.seed(s)`, and `draw dist args st` is the outcome
of the `np.random.<dist>` call with the given (already extracted)
distribution arguments in state `st` — either a drawn value together
with the successor state, or the `ValueError` numpy raises for argument
values it rejects (e.g. a negative standard deviation). -/
structure Sampler where
  init : ℕ → ℕ
  draw : ProbabilityDistribution → List ℚ → ℕ → Except Err (ℚ × ℕ)

/-- A sampler whose value-level argument checks never fire on any call:
the hypothesis under which a simulation's only failure modes are its own
validators. -/
def DrawsSucceed (S : Sampler) : Prop :=
  ∀ (d : ProbabilityDistribution) (args : List ℚ) (st : ℕ),
    ∃ out, S.draw d args st = .ok out

/-- `generate_random_sample` (risk_modeler.py lines 177-202): dispatches
on the distribution kind and subscripts the parameter dict — a missing
required key is a `KeyError` raised at sampling time.  All six enum
members are dispatched, so the final `ValueError` branch of the source is
unreachable for enum inputs. -/
def generate_random_sample (S : Sampler) (distribution : ProbabilityDistribution)
    (parameters : Params) (st : ℕ) : Except Err (ℚ × ℕ) :=
  match distribution with
  | .normal => do
    let m ← getParam parameters "mean"
    let s ← getParam parameters "std"
    S.draw .normal [m, s] st
  | .uniform => do
    let lo ← getParam parameters "min"
    let hi ← getParam parameters "max"
    S.draw .uniform [lo, hi] st
  | .triangular => do
    let lo ← getParam parameters "min"
    let mo ← getParam parameters "mode"
    let hi ← getParam parameters "max"
    S.draw .triangular [lo, mo, hi] st
  | .beta => do
    let a ← getParam parameters "alpha"
    let b ← getParam parameters "beta"
    S.draw .beta [a, b] st
  | .exponential => do
    let sc ← getParam parameters "scale"
    S.draw .exponential [sc] st
  | .lognormal => do
    let m ← getParam parameters "mean"
    let sg ← getParam parameters "sigma"
    S.draw .lognormal [m, sg] st

/-! ## risk_modeler.py : numpy statistics helpers -/

/-- Ascending sort (numpy sorts before taking percentiles). -/
def npSort (l : List ℚ) : List ℚ :=
  l.mergeSort (fun a b => decide (a ≤ b))

/-- `np.mean`. -/
def npMean (l : List ℚ) : ℚ :=
  l.sum / l.length

/-- Population variance; `np.std` is `sqrtQ` of this. -/
def npVar (l : List ℚ) : ℚ :=
  npMean (l.map (fun x => (x - npMean l) ^ 2))

/-- Linear interpolation of a sorted sample list `s` at the virtual
index `pos`, as `np.percentile` performs it: between the entries at
`⌊pos⌋` and `⌊pos⌋ + 1`, or the last entry when `⌊pos⌋ + 1` is out of
range. -/
def percentile_interp (s : List ℚ) (pos : ℚ) : ℚ :=
  if (⌊pos⌋).toNat + 1 < s.length then
    s.getD (⌊pos⌋).toNat 0 +
      (pos - ((⌊pos⌋ : ℤ) : ℚ)) *
        (s.getD ((⌊pos⌋).toNat + 1) 0 - s.getD (⌊pos⌋).toNat 0)
  else s.getD (s.length - 1) 0

/-- The value `np.percentile` computes on a non-empty sample: linear
interpolation at virtual index `q/100 * (n-1)` into the ascending sort. -/
def percentile_val (l : List ℚ) (q : ℚ) : ℚ :=
  percentile_interp (npSort l) (q / 100 * (((npSort l).length : ℚ) - 1))

/-- `np.percentile` with the default linear interpolation.  On an empty
sample numpy raises `IndexError` (cannot take from an empty axis). -/
def npPercentile (l : List ℚ) (q : ℚ) : Except Err ℚ :=
  if (npSort l).length = 0 then .error .indexError
  else .ok (percentile_val l q)

lemma npPercentile_ok {l : List ℚ} (hne : l ≠ []) (q : ℚ) :
    npPercentile l q = .ok (percentile_val l q) := by
  have hlen : (npSort l).length = l.length := List.length_mergeSort l
  unfold npPercentile
  rw [if_neg (by rw [hlen]; exact fun h => hne (List.length_eq_zero.mp h))]

/-- `np.cumsum` running from partial sum `acc`. -/
def cumsum_from (acc : ℚ) : List ℚ → List ℚ
  | [] => []
  | x :: xs => (acc + x) :: cumsum_from (acc + x) xs

/-- `np.cumsum`. -/
def cumsum (l : List ℚ) : List ℚ :=
  cumsum_from 0 l

/-- `np.maximum.accumulate` continuing from running maximum `m`. -/
def running_max_from (m : ℚ) : List ℚ → List ℚ
  | [] => []
  | x :: xs => (max m x) :: running_max_from (max m x) xs

/-- `np.maximum.accumulate`. -/
def running_max : List ℚ → List ℚ
  | [] => []
  | x :: xs => x :: running_max_from x xs

/-! ## risk_modeler.py : Monte Carlo simulation -/

/-- The fixed percentile set of `MonteCarloResult.percentiles`. -/
structure Percentiles where
  p5 : ℚ
  p10 : ℚ
  p25 : ℚ
  p50 : ℚ
  p75 : ℚ
  p90 : ℚ
  p95 : ℚ
deriving DecidableEq

/-- The three confidence intervals of
`MonteCarloResult.confidence_intervals`. -/
structure ConfidenceIntervals where
  ci90 : ℚ × ℚ
  ci95 : ℚ × ℚ
  ci99 : ℚ × ℚ
deriving DecidableEq

/-- `MonteCarloResult` (risk_modeler.py lines 78-96). -/
structure MonteCarloResult where
  variable_name : String
  iterations : ℕ
  mean : ℚ
  std_dev : ℚ
  percentiles : Percentiles
  var_95 : ℚ
  cvar_95 : ℚ
  probability_negative : ℚ
  confidence_intervals : ConfidenceIntervals
deriving DecidableEq

/-- The `validate_iterations` pydantic validator (risk_modeler.py lines
91-96): fewer than 1000 iterations is a `ValueError`. -/
def validate_iterations (v : ℕ) : Except Err ℕ :=
  if v < 1000 then .error .invalidArgument else .ok v

/-- One trial of `run_monte_carlo_simulation` (risk_modeler.py lines
228-237): draw one value per risk variable into the `variable_values`
dict, threading the generator state. -/
def mc_iteration (S : Sampler) (risk_variables : List RiskVariable) (st : ℕ) :
    Except Err (Params × ℕ) :=
  risk_variables.foldlM (fun acc var => do
    let vs ← generate_random_sample S var.distribution var.parameters acc.2
    .ok (pset acc.1 var.name vs.1, vs.2)) (([] : Params), st)

/-- The trial loop of `run_monte_carlo_simulation`: `iterations` trials,
collecting `objective_function(variable_values)` in order. -/
def mc_loop (S : Sampler) (risk_variables : List RiskVariable)
    (objective_function : Params → ℚ) : ℕ → ℕ → Except Err (List ℚ × ℕ)
  | 0, st => .ok ([], st)
  | n + 1, st => do
    let vals ← mc_iteration S risk_variables st
    let rest ← mc_loop S risk_variables objective_function n vals.2
    .ok (objective_function vals.1 :: rest.1, rest.2)

/-- The generator state at the start of the trials: `np.random.seed` is
called exactly when a seed was supplied, discarding the previous state
`st0`. -/
def seeded_state (S : Sampler) (random_seed : Option ℕ) (st0 : ℕ) : ℕ :=
  match random_seed with
  | some s => S.init s
  | none => st0

/-- `run_monte_carlo_simulation` (risk_modeler.py lines 205-278): seed
the generator if a seed is given, run the trials, compute the statistics
and construct `MonteCarloResult` (whose validator rejects
`iterations < 1000`).  `np.mean`/`np.std` of an empty results array only
warn (producing nan that is then discarded), but every `np.percentile`
call raises `IndexError` on it, before the iteration validator can run;
the percentile calls are bound in the evaluation order of the source
(the percentile dict, `var_95`, then the three confidence intervals). -/
def run_monte_carlo_simulation (S : Sampler) (sqrtQ : ℚ → ℚ)
    (risk_variables : List RiskVariable) (objective_function : Params → ℚ)
    (iterations : ℕ) (random_seed : Option ℕ) (st0 : ℕ) :
    Except Err MonteCarloResult := do
  let rs ← mc_loop S risk_variables objective_function iterations
    (seeded_state S random_seed st0)
  let p5 ← npPercentile rs.1 5
  let p10 ← npPercentile rs.1 10
  let p25 ← npPercentile rs.1 25
  let p50 ← npPercentile rs.1 50
  let p75 ← npPercentile rs.1 75
  let p90 ← npPercentile rs.1 90
  let p95 ← npPercentile rs.1 95
  let var_95 ← npPercentile rs.1 5
  let ci90a ← npPercentile rs.1 5
  let ci90b ← npPercentile rs.1 95
  let ci95a ← npPercentile rs.1 (5/2)
  let ci95b ← npPercentile rs.1 (195/2)
  let ci99a ← npPercentile rs.1 (1/2)
  let ci99b ← npPercentile rs.1 (199/2)
  let it ← validate_iterations iterations
  .ok { variable_name := "objective_value", iterations := it,
        mean := npMean rs.1, std_dev := sqrtQ (npVar rs.1),
        percentiles := { p5 := p5, p10 := p10, p25 := p25, p50 := p50,
                         p75 := p75, p90 := p90, p95 := p95 },
        var_95 := var_95,
        cvar_95 := npMean (rs.1.filter (fun x => decide (x ≤ var_95))),
        probability_negative :=
          ((rs.1.countP (fun x => decide (x < 0)) : ℕ) : ℚ) / rs.1.length,
        confidence_intervals := { ci90 := (ci90a, ci90b),
                                  ci95 := (ci95a, ci95b),
                                  ci99 := (ci99a, ci99b) } }

/-! ## Claims C2, C3, C6 (Monte Carlo validation, reproducibility, construction) -/

def required_params : ProbabilityDistribution → List String
  | .normal => ["mean", "std"]
  | .uniform => ["min", "max"]
  | .triangular => ["min", "mode", "max"]
  | .beta => ["alpha", "beta"]
  | .exponential => ["scale"]
  | .lognormal => ["mean", "sigma"]

def HasRequiredParams (v : RiskVariable) : Prop :=
  ∀ k ∈ required_params v.distribution, contains_key v.parameters k = true

instance (v : RiskVariable) : Decidable (HasRequiredParams v) := by
  unfold HasRequiredParams
  infer_instance

lemma getParam_ok_of_contains {p : Params} {k : String}
    (h : contains_key p k = true) : ∃ v, getParam p k = .ok v := by
  unfold contains_key at h
  rw [List.any_eq_true] at h
  obtain ⟨kv, hmem, hk⟩ := h
  have hfind : (p.find? (fun kv => kv.1 == k)).isSome :=
    List.find?_isSome.mpr ⟨kv, hmem, hk⟩
  obtain ⟨x, hx⟩ := Option.isSome_iff_exists.mp hfind
  exact ⟨x.2, by simp [getParam, pget, hx]⟩

lemma generate_random_sample_ok (S : Sampler) {d : ProbabilityDistribution}
    {p : Params} (st : ℕ) (hdraw : DrawsSucceed S)
    (h : ∀ k ∈ required_params d, contains_key p k = true) :
    ∃ out, generate_random_sample S d p st = .ok out := by
  cases d <;> simp only [required_params, List.mem_cons, List.mem_singleton,
    List.not_mem_nil, forall_eq_or_imp, forall_eq] at h
  case normal =>
    obtain ⟨m, hm⟩ := getParam_ok_of_contains h.1
    obtain ⟨sd, hsd⟩ := getParam_ok_of_contains h.2.1
    obtain ⟨out, hout⟩ := hdraw .normal [m, sd] st
    exact ⟨out, by simp [generate_random_sample, hm, hsd, hout, Except.bind, bind]⟩
  case uniform =>
    obtain ⟨lo, hlo⟩ := getParam_ok_of_contains h.1
    obtain ⟨hi, hhi⟩ := getParam_ok_of_contains h.2.1
    obtain ⟨out, hout⟩ := hdraw .uniform [lo, hi] st
    exact ⟨out, by simp [generate_random_sample, hlo, hhi, hout, Except.bind, bind]⟩
  case triangular =>
    obtain ⟨lo, hlo⟩ := getParam_ok_of_contains h.1
    obtain ⟨mo, hmo⟩ := getParam_ok_of_contains h.2.1
    obtain ⟨hi, hhi⟩ := getParam_ok_of_contains h.2.2.1
    obtain ⟨out, hout⟩ := hdraw .triangular [lo, mo, hi] st
    exact ⟨out, by simp [generate_random_sample, hlo, hmo, hhi, hout, Except.bind, bind]⟩
  case beta =>
    obtain ⟨a, ha⟩ := getParam_ok_of_contains h.1
    obtain ⟨b, hb⟩ := getParam_ok_of_contains h.2.1
    obtain ⟨out, hout⟩ := hdraw .beta [a, b] st
    exact ⟨out, by simp [generate_random_sample, ha, hb, hout, Except.bind, bind]⟩
  case exponential =>
    obtain ⟨sc, hsc⟩ := getParam_ok_of_contains h.1
    obtain ⟨out, hout⟩ := hdraw .exponential [sc] st
    exact ⟨out, by simp [generate_random_sample, hsc, hout, Except.bind, bind]⟩
  case lognormal =>
    obtain ⟨m, hm⟩ := getParam_ok_of_contains h.1
    obtain ⟨sg, hsg⟩ := getParam_ok_of_contains h.2.1
    obtain ⟨out, hout⟩ := hdraw .lognormal [m, sg] st
    exact ⟨out, by simp [generate_random_sample, hm, hsg, hout, Except.bind, bind]⟩

lemma mc_iteration_ok (S : Sampler) (vars : List RiskVariable)
    (hdraw : DrawsSucceed S)
    (h : ∀ var ∈ vars, HasRequiredParams var) (st : ℕ) :
    ∃ out, mc_iteration S vars st = .ok out := by
  unfold mc_iteration
  suffices hgen : ∀ (vs : List RiskVariable), (∀ var ∈ vs, HasRequiredParams var) →
      ∀ (acc : Params × ℕ), ∃ out, vs.foldlM (fun acc var => do
        let vs ← generate_random_sample S var.distribution var.parameters acc.2
        Except.ok (pset acc.1 var.name vs.1, vs.2)) acc = .ok out by
    exact hgen vars h ([], st)
  intro vs
  induction vs with
  | nil => intro _ acc; exact ⟨acc, rfl⟩
  | cons v vs ih =>
    intro hv acc
    obtain ⟨out1, hout1⟩ :=
      generate_random_sample_ok S acc.2 hdraw (hv v (by simp))
    obtain ⟨out2, hout2⟩ := ih (fun w hw => hv w (by simp [hw])) (pset acc.1 v.name out1.1, out1.2)
    refine ⟨out2, ?_⟩
    simp only [List.foldlM]
    rw [hout1]
    exact hout2

lemma mc_loop_ok (S : Sampler) (vars : List RiskVariable) (obj : Params → ℚ)
    (hdraw : DrawsSucceed S)
    (h : ∀ var ∈ vars, HasRequiredParams var) :
    ∀ (n st : ℕ), ∃ out, mc_loop S vars obj n st = .ok out ∧ out.1.length = n := by
  intro n
  induction n with
  | zero => intro st; exact ⟨([], st), rfl, rfl⟩
  | succ n ih =>
    intro st
    obtain ⟨vals, hvals⟩ := mc_iteration_ok S vars hdraw h st
    obtain ⟨out, hout, hlen⟩ := ih vals.2
    refine ⟨(obj vals.1 :: out.1, out.2), ?_, by simp [hlen]⟩
    have hstep : mc_loop S vars obj (n + 1) st =
      Except.bind (mc_iteration S vars st) (fun vals =>
        Except.bind (mc_loop S vars obj n vals.2) (fun rest =>
          Except.ok (obj vals.1 :: rest.1, rest.2))) := rfl
    rw [hstep, hvals]
    show Except.bind (mc_loop S vars obj n vals.2) _ = _
    rw [hout]
    rfl

lemma exists_ok_of_bind {ε α β : Type} {x : Except ε α} {a : α} {k : α → Except ε β}
    (hx : x = .ok a) (hk : ∃ b, k a = .ok b) :
    ∃ b, (bind x k : Except ε β) = .ok b := by
  rcases hk with ⟨b, hb⟩
  exact ⟨b, by rw [hx]; exact hb⟩

lemma bind_ok_elim {ε α β : Type} {x : Except ε α} {a : α} {k : α → Except ε β}
    (hx : x = .ok a) : (bind x k : Except ε β) = k a := by
  rw [hx]
  rfl

/-- The success case of `run_monte_carlo_simulation`, for any
successfully completed, non-empty trial loop: the percentile calls all
succeed and the result record is built from the collected outcomes
(provided the iteration validator passes). -/
lemma run_eq_of_loop (sqrtQ : ℚ → ℚ) {S : Sampler} {vars : List RiskVariable}
    {obj : Params → ℚ} {iters : ℕ} {seed : Option ℕ} {st0 : ℕ}
    {res : List ℚ} {st' : ℕ}
    (hloop : mc_loop S vars obj iters (seeded_state S seed st0) = .ok (res, st'))
    (hres : res ≠ [])
    (hval : validate_iterations iters = .ok iters) :
    run_monte_carlo_simulation S sqrtQ vars obj iters seed st0 = .ok
      { variable_name := "objective_value", iterations := iters,
        mean := npMean res, std_dev := sqrtQ (npVar res),
        percentiles :=
          { p5 := percentile_val res 5, p10 := percentile_val res 10,
            p25 := percentile_val res 25, p50 := percentile_val res 50,
            p75 := percentile_val res 75, p90 := percentile_val res 90,
            p95 := percentile_val res 95 },
        var_95 := percentile_val res 5,
        cvar_95 := npMean (res.filter (fun x => decide (x ≤ percentile_val res 5))),
        probability_negative :=
          ((res.countP (fun x => decide (x < 0)) : ℕ) : ℚ) / res.length,
        confidence_intervals :=
          { ci90 := (percentile_val res 5, percentile_val res 95),
            ci95 := (percentile_val res (5/2), percentile_val res (195/2)),
            ci99 := (percentile_val res (1/2), percentile_val res (199/2)) } } := by
  unfold run_monte_carlo_simulation
  rw [bind_ok_elim hloop]
  simp only [npPercentile_ok hres]
  show Except.bind (validate_iterations iters) _ = _
  rw [hval]
  rfl

/-- The failing-validator case of `run_monte_carlo_simulation`: a
successfully completed, non-empty trial loop followed by a rejected
iteration count propagates exactly the validator error. -/
lemma run_err_of_loop {S : Sampler} (sqrtQ : ℚ → ℚ) {vars : List RiskVariable}
    {obj : Params → ℚ} {iters : ℕ} {seed : Option ℕ} {st0 : ℕ}
    {res : List ℚ} {st' : ℕ} {e : Err}
    (hloop : mc_loop S vars obj iters (seeded_state S seed st0) = .ok (res, st'))
    (hres : res ≠ [])
    (hval : validate_iterations iters = .error e) :
    run_monte_carlo_simulation S sqrtQ vars obj iters seed st0 = .error e := by
  unfold run_monte_carlo_simulation
  rw [bind_ok_elim hloop]
  simp only [npPercentile_ok hres]
  show Except.bind (validate_iterations iters) _ = _
  rw [hval]
  rfl

/-- C2 (amended): with risk variables whose parameter dicts carry every
key their distribution kind samples and a sampler whose value-level
checks never fire, `run_monte_carlo_simulation` raises `InvalidArgument`
(the `MonteCarloResult` iteration validator) exactly for
`1 ≤ iterations < 1000` — in particular 999 iterations always raise —
and returns a result for `iterations ≥ 1000`; at `iterations = 0` the
failure is instead the `IndexError` that `np.percentile` raises on the
empty results array, before the iteration validator is reached. -/
theorem run_monte_carlo_insufficient_iterations_iff
    (S : Sampler) (sqrtQ : ℚ → ℚ) (risk_variables : List RiskVariable)
    (objective_function : Params → ℚ) (iterations : ℕ)
    (random_seed : Option ℕ) (st0 : ℕ)
    (hdraw : DrawsSucceed S)
    (hvalid : ∀ var ∈ risk_variables, HasRequiredParams var) :
    (1 ≤ iterations → iterations < 1000 →
      run_monte_carlo_simulation S sqrtQ risk_variables objective_function
        iterations random_seed st0 = .error .invalidArgument) ∧
    (1000 ≤ iterations →
      ∃ r, run_monte_carlo_simulation S sqrtQ risk_variables objective_function
        iterations random_seed st0 = .ok r) ∧
    (iterations = 0 →
      run_monte_carlo_simulation S sqrtQ risk_variables objective_function
        iterations random_seed st0 = .error .indexError) := by
  obtain ⟨out, hloop, hlen⟩ := mc_loop_ok S risk_variables objective_function
    hdraw hvalid iterations (seeded_state S random_seed st0)
  refine ⟨?_, ?_, ?_⟩
  · intro hge1 hlt
    have hres : out.1 ≠ [] := by
      intro hnil
      rw [hnil] at hlen
      simp at hlen
      omega
    have hval : validate_iterations iterations = .error .invalidArgument := by
      unfold validate_iterations
      rw [if_pos hlt]
    exact run_err_of_loop sqrtQ hloop hres hval
  · intro hge
    have hres : out.1 ≠ [] := by
      intro hnil
      rw [hnil] at hlen
      simp at hlen
      omega
    have hval : validate_iterations iterations = .ok iterations := by
      unfold validate_iterations
      rw [if_neg (Nat.not_lt.mpr hge)]
    exact ⟨_, run_eq_of_loop sqrtQ hloop hres hval⟩
  · intro h0
    subst h0
    unfold run_monte_carlo_simulation
    with_unfolding_all rfl

/-- C3: when a seed is supplied, `np.random.seed` discards the previous
generator state, so two runs of `run_monte_carlo_simulation` with
identical inputs and the same seed — whatever generator states `st0`,
`st1` they start from — return identical `MonteCarloResult` records
(same mean, std-dev, percentiles, VaR, CVaR, probability-negative and
confidence intervals). -/
theorem run_monte_carlo_seed_reproducible
    (S : Sampler) (sqrtQ : ℚ → ℚ) (risk_variables : List RiskVariable)
    (objective_function : Params → ℚ) (iterations : ℕ) (seed : ℕ) (st0 st1 : ℕ) :
    run_monte_carlo_simulation S sqrtQ risk_variables objective_function
      iterations (some seed) st0 =
    run_monte_carlo_simulation S sqrtQ risk_variables objective_function
      iterations (some seed) st1 := rfl


def unitSampler : Sampler :=
  { init := fun s => s, draw := fun _ _ st => .ok (0, st + 1) }

def normalVar : RiskVariable :=
  { name := "x", description := "demand", distribution := .normal,
    parameters := [("mean", 0), ("std", 1)], unit := none, correlation_matrix := none }

theorem run_monte_carlo_insufficient_iterations_iff_witness :
  DrawsSucceed unitSampler ∧
  (∀ var ∈ [normalVar], HasRequiredParams var) ∧
  run_monte_carlo_simulation unitSampler (fun q => q) [normalVar] (fun _ => 0)
    999 none 0 = .error .invalidArgument ∧
  (∃ r, run_monte_carlo_simulation unitSampler (fun q => q) [normalVar] (fun _ => 0)
    1000 none 0 = .ok r) ∧
  run_monte_carlo_simulation unitSampler (fun q => q) [normalVar] (fun _ => 0)
    0 none 0 = .error .indexError := by
  have hdraw : DrawsSucceed unitSampler := fun _ _ st => ⟨(0, st + 1), rfl⟩
  have hvalid : ∀ var ∈ [normalVar], HasRequiredParams var := by decide
  refine ⟨hdraw, hvalid, ?_, ?_, ?_⟩
  · exact (run_monte_carlo_insufficient_iterations_iff unitSampler (fun q => q)
      [normalVar] (fun _ => 0) 999 none 0 hdraw hvalid).1 (by norm_num) (by norm_num)
  · exact (run_monte_carlo_insufficient_iterations_iff unitSampler (fun q => q)
      [normalVar] (fun _ => 0) 1000 none 0 hdraw hvalid).2.1 (by norm_num)
  · exact (run_monte_carlo_insufficient_iterations_iff unitSampler (fun q => q)
      [normalVar] (fun _ => 0) 0 none 0 hdraw hvalid).2.2 rfl

/-- C2 (counterexample to the claim as stated): at `iterations = 0`,
with a valid normal risk variable and a total sampler, the run fails
with the `IndexError` that `np.percentile` raises on the empty results
array — not the `InvalidArgument` of the `MonteCarloResult` iteration
validator that the claim predicts for every count below 1000 (the
validator is never reached). -/
theorem run_monte_carlo_zero_iterations_index_error :
  run_monte_carlo_simulation unitSampler (fun q => q) [normalVar] (fun _ => 0)
    0 none 0 = .error .indexError ∧ Err.indexError ≠ Err.invalidArgument := by
  refine ⟨?_, by decide⟩
  with_unfolding_all rfl

theorem riskvar_beta_missing_params_not_rejected :
  mkRiskVariable "x" "demand" .beta [] none none =
    .ok { name := "x", description := "demand", distribution := .beta,
          parameters := [], unit := none, correlation_matrix := none } := rfl

/-- C6 (amended): construction of a `RiskVariable` fails exactly when
the declared kind is normal, uniform or triangular and a key required by
that kind is missing; the beta, exponential and log-normal kinds are not
validated at construction (their missing parameters only surface as a
`KeyError` at sampling time, inside `generate_random_sample`). -/
theorem risk_variable_construction_checks_only_three_kinds
    (name description : String) (distribution : ProbabilityDistribution)
    (parameters : Params) (unit : Option String) (corr : Option Params) :
    (∃ e, mkRiskVariable name description distribution parameters unit corr = .error e) ↔
      ((distribution = .normal ∧
          (¬ contains_key parameters "mean" ∨ ¬ contains_key parameters "std")) ∨
       (distribution = .uniform ∧
          (¬ contains_key parameters "min" ∨ ¬ contains_key parameters "max")) ∨
       (distribution = .triangular ∧
          (¬ contains_key parameters "min" ∨ ¬ contains_key parameters "max" ∨
            ¬ contains_key parameters "mode"))) := by
  cases distribution
  case normal =>
    cases hmean : contains_key parameters "mean" <;>
      cases hstd : contains_key parameters "std" <;>
        simp [mkRiskVariable, validate_parameters, hmean, hstd, Except.bind, bind]
  case uniform =>
    cases hlo : contains_key parameters "min" <;>
      cases hhi : contains_key parameters "max" <;>
        simp [mkRiskVariable, validate_parameters, hlo, hhi, Except.bind, bind]
  case triangular =>
    cases hlo : contains_key parameters "min" <;>
      cases hhi : contains_key parameters "max" <;>
        cases hmo : contains_key parameters "mode" <;>
          simp [mkRiskVariable, validate_parameters, hlo, hhi, hmo, Except.bind, bind]
  case beta =>
    simp [mkRiskVariable, validate_parameters, Except.bind, bind]
  case exponential =>
    simp [mkRiskVariable, validate_parameters, Except.bind, bind]
  case lognormal =>
    simp [mkRiskVariable, validate_parameters, Except.bind, bind]

/-! ## Claim C4 (overall risk score aggregation) -/

/-- `ScenarioAnalysis` (risk_modeler.py lines 99-116).  The `assumptions`
field has Python type `Dict[str, Any]`; `Any` has no shallow embedding
and no verified property reads it, so it is omitted here. -/
structure ScenarioAnalysis where
  scenario_name : String
  scenario_type : ScenarioType
  outcomes : Params
  probability : ℚ
  impact_assessment : String
  risk_factors : List String
  mitigation_strategies : List String
deriving DecidableEq

/-- The `risk_factors` list of `perform_comprehensive_risk_assessment`
(risk_modeler.py lines 667-671): (a) the Monte Carlo probability of a
negative outcome, (b) `|VaR95| / |mean|` (0 when the mean is 0), (c) the
fraction of analyzed scenarios of worst-case kind (0 when there are no
scenarios). -/
def risk_factors_list (mc : MonteCarloResult)
    (scenario_analyses : List ScenarioAnalysis) : List ℚ :=
  [mc.probability_negative,
   if mc.mean ≠ 0 then |mc.var_95| / |mc.mean| else 0,
   if scenario_analyses ≠ [] then
     ((scenario_analyses.countP (fun s => decide (s.scenario_type = .worst_case)) : ℕ) : ℚ) /
       scenario_analyses.length
   else 0]

/-- `overall_risk_score` (risk_modeler.py line 672):
`min(sum(risk_factors) / len(risk_factors), 1.0)`. -/
def overall_risk_score (mc : MonteCarloResult)
    (scenario_analyses : List ScenarioAnalysis) : ℚ :=
  min ((risk_factors_list mc scenario_analyses).sum /
    (risk_factors_list mc scenario_analyses).length) 1

/-- C4 (amended): the overall risk score equals the unweighted mean of
the three risk signals clamped from above at 1 — Python's
`min(sum(risk_factors)/len(risk_factors), 1.0)` — and, the signals being
nonnegative (the probability signal is a count divided by a length in
every reachable result), the score lies in `[0, 1]`. -/
theorem overall_risk_score_clamped_mean
    (mc : MonteCarloResult) (scenario_analyses : List ScenarioAnalysis)
    (hp : 0 ≤ mc.probability_negative) :
    overall_risk_score mc scenario_analyses =
      min ((risk_factors_list mc scenario_analyses).sum / 3) 1 ∧
    0 ≤ overall_risk_score mc scenario_analyses ∧
    overall_risk_score mc scenario_analyses ≤ 1 := by
  have hlen : ((risk_factors_list mc scenario_analyses).length : ℚ) = 3 := by
    simp [risk_factors_list]
  have h2 : (0 : ℚ) ≤ (if mc.mean ≠ 0 then |mc.var_95| / |mc.mean| else 0) := by
    split
    · positivity
    · exact le_refl 0
  have h3 : (0 : ℚ) ≤ (if scenario_analyses ≠ [] then
      ((scenario_analyses.countP (fun s => decide (s.scenario_type = .worst_case)) : ℕ) : ℚ) /
        scenario_analyses.length else 0) := by
    split
    · positivity
    · exact le_refl 0
  have hsum : 0 ≤ (risk_factors_list mc scenario_analyses).sum := by
    simp only [risk_factors_list, List.sum_cons, List.sum_nil, add_zero]
    have := add_nonneg hp (add_nonneg h2 h3)
    linarith
  refine ⟨by rw [overall_risk_score, hlen], ?_, ?_⟩
  · rw [overall_risk_score, hlen]
    exact le_min (by positivity) (by norm_num)
  · exact min_le_right _ _

def zero_mc : MonteCarloResult :=
  { variable_name := "objective_value", iterations := 1000, mean := 0, std_dev := 0,
    percentiles := ⟨0, 0, 0, 0, 0, 0, 0⟩, var_95 := 0, cvar_95 := 0,
    probability_negative := 0, confidence_intervals := ⟨(0, 0), (0, 0), (0, 0)⟩ }

theorem overall_risk_score_clamped_mean_witness :
  (0 : ℚ) ≤ zero_mc.probability_negative ∧
  (overall_risk_score zero_mc [] = min ((risk_factors_list zero_mc []).sum / 3) 1 ∧
   0 ≤ overall_risk_score zero_mc [] ∧ overall_risk_score zero_mc [] ≤ 1) :=
⟨le_refl 0, overall_risk_score_clamped_mean zero_mc [] (le_refl 0)⟩

/-! The concrete simulation refuting the unclamped-mean reading of the
overall risk score: an abstract sampler whose successive draws are 100
times `-100` followed by `-1/10` forever, one uniform risk variable
(with valid `min`/`max` parameters), and the objective that reads the
variable back. -/

def cex_stream (n : ℕ) : ℚ := if n < 100 then -100 else -(1/10)

def cexSampler : Sampler :=
  { init := fun s => s, draw := fun _ _ st => .ok (cex_stream st, st + 1) }

def cexVar : RiskVariable :=
  { name := "x", description := "outcome", distribution := .uniform,
    parameters := [("min", 0), ("max", 1)], unit := none, correlation_matrix := none }

def cexObj : Params → ℚ := fun d =>
  match pget d "x" with
  | some v => v
  | none => 0

def baseScenario : ScenarioAnalysis :=
  { scenario_name := "base", scenario_type := .base_case, outcomes := [],
    probability := 1/2, impact_assessment := "base case", risk_factors := [],
    mitigation_strategies := [] }

def cexResults : List ℚ :=
  List.replicate 100 (-100) ++ List.replicate 900 (-(1/10))

lemma cex_iteration (st : ℕ) :
    mc_iteration cexSampler [cexVar] st = .ok ([("x", cex_stream st)], st + 1) := by
  with_unfolding_all rfl

lemma cex_loop : ∀ (n st : ℕ),
    mc_loop cexSampler [cexVar] cexObj n st =
      .ok ((List.range' st n).map cex_stream, st + n) := by
  intro n
  induction n with
  | zero => intro st; rfl
  | succ n ih =>
    intro st
    have hstep : mc_loop cexSampler [cexVar] cexObj (n + 1) st =
      Except.bind (mc_iteration cexSampler [cexVar] st) (fun vals =>
        Except.bind (mc_loop cexSampler [cexVar] cexObj n vals.2) (fun rest =>
          Except.ok (cexObj vals.1 :: rest.1, rest.2))) := rfl
    rw [hstep, cex_iteration st]
    show Except.bind (mc_loop cexSampler [cexVar] cexObj n (st + 1)) _ = _
    rw [ih (st + 1)]
    show Except.ok (cexObj [("x", cex_stream st)] ::
      (List.range' (st + 1) n).map cex_stream, st + 1 + n) = _
    have h1 : cexObj [("x", cex_stream st)] = cex_stream st := by
      with_unfolding_all rfl
    have h2 : st + 1 + n = st + (n + 1) := by omega
    rw [h1, h2, List.range'_succ, List.map_cons]

lemma cex_results_eq : (List.range' 0 1000).map cex_stream = cexResults := by
  rw [List.range'_eq_map_range]
  have hid : (List.range 1000).map (fun x => 0 + x) = List.range 1000 := by
    simp
  rw [hid, show (1000 : ℕ) = 100 + 900 from rfl, List.range_add, List.map_append,
    List.map_map]
  unfold cexResults
  have h1 : (List.range 100).map cex_stream = List.replicate 100 (-100 : ℚ) := by
    rw [List.eq_replicate_iff]
    refine ⟨by simp, ?_⟩
    intro b hb
    obtain ⟨i, hi, rfl⟩ := List.mem_map.mp hb
    have hilt : i < 100 := List.mem_range.mp hi
    simp [cex_stream, hilt]
  have h2 : (List.range 900).map (cex_stream ∘ fun x => 100 + x) =
      List.replicate 900 (-(1/10) : ℚ) := by
    rw [List.eq_replicate_iff]
    refine ⟨by simp, ?_⟩
    intro b hb
    obtain ⟨i, hi, rfl⟩ := List.mem_map.mp hb
    have hnlt : ¬ (100 + i < 100) := by omega
    simp [cex_stream, Function.comp, hnlt]
  rw [h1, h2]

lemma cexResults_length : cexResults.length = 1000 := by
  unfold cexResults
  rw [List.length_append, List.length_replicate, List.length_replicate]

lemma cex_mean : npMean cexResults = -1009/100 := by
  unfold npMean
  rw [cexResults_length]
  unfold cexResults
  rw [List.sum_append, List.sum_replicate, List.sum_replicate, nsmul_eq_mul, nsmul_eq_mul]
  push_cast
  norm_num

lemma cex_prob_neg :
    ((cexResults.countP (fun x => decide (x < 0)) : ℕ) : ℚ) / cexResults.length = 1 := by
  rw [cexResults_length]
  unfold cexResults
  rw [List.countP_append, List.countP_replicate, List.countP_replicate,
    if_pos (decide_eq_true (by norm_num : (-100 : ℚ) < 0)),
    if_pos (decide_eq_true (by norm_num : (-((1 : ℚ)/10)) < 0))]
  push_cast
  norm_num

lemma cex_sorted : npSort cexResults = cexResults := by
  unfold npSort
  apply List.mergeSort_eq_self
  unfold cexResults
  refine List.pairwise_append.mpr ⟨?_, ?_, ?_⟩
  · exact List.pairwise_replicate.mpr (Or.inr le_rfl)
  · exact List.pairwise_replicate.mpr (Or.inr le_rfl)
  · intro a ha b hb
    rw [List.mem_replicate] at ha hb
    rw [ha.2, hb.2]
    norm_num

lemma cex_var95 : percentile_val cexResults 5 = -100 := by
  unfold percentile_val
  rw [cex_sorted, cexResults_length]
  have hpos : (5 : ℚ) / 100 * (((1000 : ℕ) : ℚ) - 1) = 999/20 := by
    push_cast
    norm_num
  rw [hpos]
  unfold percentile_interp
  have hfloor : (⌊(999 : ℚ)/20⌋ : ℤ) = 49 := by
    rw [Int.floor_eq_iff]
    norm_num
  rw [hfloor, cexResults_length, show ((49 : ℤ).toNat) = 49 from rfl]
  have h49 : cexResults.getD 49 0 = -100 := by
    unfold cexResults
    rw [List.getD_eq_getElem?_getD,
      List.getElem?_append_left (by rw [List.length_replicate]; norm_num),
      List.getElem?_replicate, if_pos (by norm_num)]
    rfl
  have h50 : cexResults.getD (49 + 1) 0 = -100 := by
    unfold cexResults
    rw [List.getD_eq_getElem?_getD,
      List.getElem?_append_left (by rw [List.length_replicate]; norm_num),
      List.getElem?_replicate, if_pos (by norm_num)]
    rfl
  rw [if_pos (by norm_num), h50, h49]
  ring


def cexRecord : MonteCarloResult :=
  { variable_name := "objective_value", iterations := 1000,
    mean := npMean cexResults,
    std_dev := npVar cexResults,
    percentiles :=
      { p5 := percentile_val cexResults 5, p10 := percentile_val cexResults 10,
        p25 := percentile_val cexResults 25, p50 := percentile_val cexResults 50,
        p75 := percentile_val cexResults 75, p90 := percentile_val cexResults 90,
        p95 := percentile_val cexResults 95 },
    var_95 := percentile_val cexResults 5,
    cvar_95 := npMean (cexResults.filter (fun x => decide (x ≤ percentile_val cexResults 5))),
    probability_negative :=
      ((cexResults.countP (fun x => decide (x < 0)) : ℕ) : ℚ) / cexResults.length,
    confidence_intervals :=
      { ci90 := (percentile_val cexResults 5, percentile_val cexResults 95),
        ci95 := (percentile_val cexResults (5/2), percentile_val cexResults (195/2)),
        ci99 := (percentile_val cexResults (1/2), percentile_val cexResults (199/2)) } }

lemma cex_run :
    run_monte_carlo_simulation cexSampler (fun q => q) [cexVar] cexObj 1000 (some 0) 0 =
      .ok cexRecord := by
  have hval : validate_iterations 1000 = .ok 1000 := by
    rw [validate_iterations, if_neg (by norm_num)]
  have hres0 : cexResults ≠ [] := by
    intro hnil
    have hl := cexResults_length
    rw [hnil] at hl
    simp at hl
  have hres : (List.range' (seeded_state cexSampler (some 0) 0) 1000).map cex_stream ≠ [] := by
    rw [show seeded_state cexSampler (some 0) 0 = 0 from rfl, cex_results_eq]
    exact hres0
  have h := run_eq_of_loop (fun q => q)
    (cex_loop 1000 (seeded_state cexSampler (some 0) 0)) hres hval
  rw [show seeded_state cexSampler (some 0) 0 = 0 from rfl, cex_results_eq] at h
  unfold cexRecord
  exact h

lemma cex_factors : risk_factors_list cexRecord [baseScenario] = [1, 10000/1009, 0] := by
  unfold risk_factors_list cexRecord
  rw [cex_prob_neg, cex_mean, cex_var95]
  rw [if_pos (by norm_num : (-1009/100 : ℚ) ≠ 0)]
  rw [if_pos (by simp : ([baseScenario] : List ScenarioAnalysis) ≠ [])]
  have hcount : ([baseScenario].countP
      (fun s => decide (s.scenario_type = ScenarioType.worst_case))) = 0 := by
    with_unfolding_all rfl
  rw [hcount]
  rw [abs_of_neg (by norm_num : (-100 : ℚ) < 0),
    abs_of_neg (by norm_num : (-1009/100 : ℚ) < 0)]
  norm_num

/-- C4 (counterexample to the claim as stated): a reachable
1000-iteration simulation — 100 draws of `-100` and 900 draws of
`-1/10` — has probability-negative 1, mean `-1009/100` and VaR95
`-100`, so the three risk signals average `11009/3027 > 1`; the code
returns the clamped score `1`, not the unweighted mean. -/
theorem overall_risk_score_clamps_above_one :
  (run_monte_carlo_simulation cexSampler (fun q => q) [cexVar] cexObj 1000
      (some 0) 0).map
    (fun mc => (overall_risk_score mc [baseScenario],
      (risk_factors_list mc [baseScenario]).sum /
        ((risk_factors_list mc [baseScenario]).length : ℚ))) =
    .ok (1, 11009/3027) ∧ (1 : ℚ) ≠ 11009/3027 := by
  refine ⟨?_, by norm_num⟩
  rw [cex_run]
  simp only [Except.map]
  have hmean3 : (risk_factors_list cexRecord [baseScenario]).sum /
      ((risk_factors_list cexRecord [baseScenario]).length : ℚ) = 11009/3027 := by
    rw [cex_factors]
    simp only [List.sum_cons, List.sum_nil, List.length_cons, List.length_nil]
    norm_num
  have hscore : overall_risk_score cexRecord [baseScenario] = 1 := by
    unfold overall_risk_score
    rw [cex_factors]
    simp only [List.sum_cons, List.sum_nil, List.length_cons, List.length_nil]
    rw [min_eq_right (by norm_num)]
  rw [hscore, hmean3]

/-! ## Claim C7 (risk metrics: maximum drawdown) -/

/-- A numpy float value: finite, one of the two infinities, or nan.
Needed because the drawdown series divides by a running peak that can be
zero, and numpy array division then yields `0/0 = nan` or `±x/0` equal
to the signed infinite value. -/
inductive PyF where
  | fin (q : ℚ)
  | pinf
  | ninf
  | nan
deriving DecidableEq

/-- The binary minimum `np.min` folds over an array of numpy floats:
`nan` poisons, the negative infinite value dominates, the positive one
is an identity. -/
def pyMin : PyF → PyF → PyF
  | .nan, _ => .nan
  | _, .nan => .nan
  | .ninf, _ => .ninf
  | _, .ninf => .ninf
  | .pinf, y => y
  | x, .pinf => x
  | .fin a, .fin b => .fin (min a b)

/-- `np.min` over an array of numpy floats; on an empty array numpy
raises `ValueError` (zero-size array to reduction operation). -/
def npMinF : List PyF → Except Err PyF
  | [] => .error .invalidArgument
  | x :: xs => .ok (xs.foldl pyMin x)

/-- `RiskMetric` (risk_modeler.py lines 119-134).  The metric value is a
numpy float, since nan and the infinite values are reachable. -/
structure RiskMetric where
  metric_name : String
  value : PyF
  confidence_level : ℚ
  methodology : String
  assumptions : List String
  limitations : List String
deriving DecidableEq

/-- Python `str.strip()`: drop whitespace from both ends (modelled
structurally over the character list). -/
def pystrip (s : String) : String :=
  ⟨((s.data.dropWhile Char.isWhitespace).reverse.dropWhile Char.isWhitespace).reverse⟩

/-- Constructing a `RiskMetric`: pydantic validates the stripped name as
non-empty (`validate_metric_name`, which also stores the stripped name)
and the `confidence_level` as lying in `[0, 1]` (its `Field` bounds). -/
def mkRiskMetric (metric_name : String) (value : PyF) (confidence_level : ℚ)
    (methodology : String) (assumptions limitations : List String) :
    Except Err RiskMetric :=
  if pystrip metric_name = "" then .error .invalidArgument
  else if confidence_level < 0 ∨ 1 < confidence_level then .error .invalidArgument
  else .ok { metric_name := pystrip metric_name, value := value,
             confidence_level := confidence_level, methodology := methodology,
             assumptions := assumptions, limitations := limitations }

lemma mkRiskMetric_ok (name : String) (v : PyF) (conf : ℚ) (m : String)
    (a lim : List String) (hname : ¬ (pystrip name = ""))
    (hconf : ¬ (conf < 0 ∨ 1 < conf)) :
    mkRiskMetric name v conf m a lim =
      .ok { metric_name := pystrip name, value := v, confidence_level := conf,
            methodology := m, assumptions := a, limitations := lim } := by
  unfold mkRiskMetric
  rw [if_neg hname, if_neg hconf]

/-- The drawdown series of risk_modeler.py lines 451-453:
`(cumulative - runningPeak) / runningPeak` over the cumulative-sum
series, with numpy array-division semantics at a zero running peak
(`0/0 = nan`, a nonzero numerator over zero gives the signed infinite
value). -/
def drawdown_list (l : List ℚ) : List PyF :=
  ((cumsum l).zip (running_max (cumsum l))).map (fun cp =>
    if cp.2 = 0 then
      if cp.1 - cp.2 = 0 then PyF.nan
      else if 0 < cp.1 - cp.2 then PyF.pinf else PyF.ninf
    else PyF.fin ((cp.1 - cp.2) / cp.2))

/-- `calculate_risk_metrics` (risk_modeler.py lines 403-505): VaR, CVaR,
maximum drawdown, volatility, skewness and excess kurtosis over a
historical series, in that order (the local variables of the source are
inlined apart from `var_value`; the skewness and kurtosis of a
zero-variance series are nan, their standardisation dividing by
`np.std = 0`). -/
def calculate_risk_metrics (sqrtQ : ℚ → ℚ) (historical_data : List ℚ)
    (confidence_level : ℚ) : Except Err (List RiskMetric) :=
  if historical_data = [] then .error .invalidArgument
  else do
    let var_value ← npPercentile historical_data ((1 - confidence_level) * 100)
    let var_metric ← mkRiskMetric "Value at Risk (VaR)" (.fin var_value)
      confidence_level "Historical simulation"
      ["Past performance is representative of future risk"]
      ["Does not capture tail risks beyond confidence level"]
    let cvar_metric ← mkRiskMetric "Conditional Value at Risk (CVaR)"
      (.fin (npMean (historical_data.filter (fun x => decide (x ≤ var_value)))))
      confidence_level "Expected shortfall calculation"
      ["Linear relationship between historical and future losses"]
      ["Assumes stable distribution of returns"]
    let max_drawdown ← npMinF (drawdown_list historical_data)
    let drawdown_metric ← mkRiskMetric "Maximum Drawdown" max_drawdown 1
      "Peak-to-trough decline calculation"
      ["Drawdown pattern is representative"]
      ["Historical measure may not predict future drawdowns"]
    let volatility_metric ← mkRiskMetric "Volatility"
      (.fin (sqrtQ (npVar historical_data))) confidence_level
      "Standard deviation calculation"
      ["Returns are normally distributed"]
      ["May underestimate risk for non-normal distributions"]
    let skewness_metric ← mkRiskMetric "Skewness"
      (if npVar historical_data = 0 then .nan
       else .fin (npMean (historical_data.map (fun x =>
         ((x - npMean historical_data) / sqrtQ (npVar historical_data)) ^ 3))))
      confidence_level "Third moment calculation"
      ["Sample skewness represents population skewness"]
      ["Sensitive to outliers"]
    let kurtosis_metric ← mkRiskMetric "Kurtosis"
      (if npVar historical_data = 0 then .nan
       else .fin (npMean (historical_data.map (fun x =>
         ((x - npMean historical_data) / sqrtQ (npVar historical_data)) ^ 4)) - 3))
      confidence_level "Fourth moment calculation (excess kurtosis)"
      ["Sample kurtosis represents population kurtosis"]
      ["Sensitive to outliers"]
    .ok [var_metric, cvar_metric, drawdown_metric, volatility_metric,
         skewness_metric, kurtosis_metric]

lemma bind_ok_intro {ε α β : Type} {x : Except ε α} {a : α} {k : α → Except ε β}
    {P : β → Prop} (hx : x = .ok a) (hk : ∃ b, k a = .ok b ∧ P b) :
    ∃ b, (bind x k : Except ε β) = .ok b ∧ P b := by
  rcases hk with ⟨b, hb, hP⟩
  exact ⟨b, by rw [hx]; exact hb, hP⟩

lemma foldl_pyMin_fin_zero (xs : List PyF)
    (h : ∀ y ∈ xs, ∃ v, y = PyF.fin v ∧ 0 ≤ v) :
    xs.foldl pyMin (PyF.fin 0) = PyF.fin 0 := by
  induction xs with
  | nil => rfl
  | cons y ys ih =>
    obtain ⟨v, hy, hv⟩ := h y (by simp)
    subst hy
    rw [List.foldl_cons]
    show ys.foldl pyMin (PyF.fin (min 0 v)) = PyF.fin 0
    rw [min_eq_left hv]
    exact ih (fun z hz => h z (by simp [hz]))

lemma drawdown_aux (xs : List ℚ) : ∀ (s p : ℚ), s ≤ p →
    (0 < p → p ≤ s ∧ ∀ y ∈ xs, 0 ≤ y) → xs.Pairwise (· ≤ ·) →
    (∀ y ∈ running_max_from p (cumsum_from s xs), y ≠ 0) →
    ∀ z ∈ ((cumsum_from s xs).zip (running_max_from p (cumsum_from s xs))).map
      (fun cp => if cp.2 = 0 then
          if cp.1 - cp.2 = 0 then PyF.nan
          else if 0 < cp.1 - cp.2 then PyF.pinf else PyF.ninf
        else PyF.fin ((cp.1 - cp.2) / cp.2)),
      ∃ v, z = PyF.fin v ∧ 0 ≤ v := by
  induction xs with
  | nil =>
    intro s p _ _ _ _ z hz
    simp [cumsum_from, running_max_from] at hz
  | cons x xs ih =>
    intro s p hsp hJ hpair hnz z hz
    rw [List.pairwise_cons] at hpair
    have hnzh : max p (s + x) ≠ 0 := by
      apply hnz
      simp only [cumsum_from, running_max_from]
      exact List.mem_cons_self _ _
    have hnzt : ∀ y ∈ running_max_from (max p (s + x)) (cumsum_from (s + x) xs),
        y ≠ 0 := by
      intro y hy
      apply hnz
      simp only [cumsum_from, running_max_from]
      exact List.mem_cons_of_mem _ hy
    simp only [cumsum_from, running_max_from, List.zip_cons_cons, List.map_cons,
      List.mem_cons] at hz
    rcases hz with hz | hz
    · -- the head entry
      subst hz
      rcases le_or_lt p (s + x) with hc | hc
      · rw [max_eq_right hc] at hnzh ⊢
        refine ⟨0, ?_, le_refl 0⟩
        rw [if_neg hnzh, sub_self, zero_div]
      · rw [max_eq_left (le_of_lt hc)] at hnzh ⊢
        refine ⟨(s + x - (p : ℚ)) / p, ?_, ?_⟩
        · rw [if_neg hnzh]
        · rcases lt_trichotomy p 0 with hp | hp | hp
          · exact div_nonneg_of_nonpos (by linarith) (le_of_lt hp)
          · exact absurd hp hnzh
          · obtain ⟨hps, hall⟩ := hJ hp
            have hx0 : 0 ≤ x := hall x (by simp)
            linarith
    · -- the tail entries
      rcases le_or_lt p (s + x) with hc | hc
      · rw [max_eq_right hc] at hz hnzt
        refine ih (s + x) (s + x) (le_refl _) ?_ hpair.2 hnzt z hz
        intro hpos
        refine ⟨le_refl _, ?_⟩
        rcases lt_or_le 0 p with hp | hp
        · intro y hy
          exact (hJ hp).2 y (by simp [hy])
        · have hx : 0 < x := by linarith
          intro y hy
          have := hpair.1 y hy
          linarith
      · rw [max_eq_left (le_of_lt hc)] at hz hnzt
        refine ih (s + x) p (le_of_lt hc) ?_ hpair.2 hnzt z hz
        intro hpos
        obtain ⟨hps, hall⟩ := hJ hpos
        have hx0 : 0 ≤ x := hall x (by simp)
        exact absurd hc (by linarith)

lemma npMinF_cons (x : PyF) (xs : List PyF) :
    npMinF (x :: xs) = .ok (xs.foldl pyMin x) := rfl

lemma max_drawdown_zero (l : List ℚ) (hne : l ≠ []) (hmono : l.Sorted (· ≤ ·))
    (hpeak : ∀ y ∈ running_max (cumsum l), y ≠ 0) :
    npMinF (drawdown_list l) = .ok (PyF.fin 0) := by
  obtain ⟨d0, rest, rfl⟩ := List.exists_cons_of_ne_nil hne
  rw [List.sorted_cons] at hmono
  have hmem : running_max (cumsum (d0 :: rest)) =
      (0 + d0) :: running_max_from (0 + d0) (cumsum_from (0 + d0) rest) := rfl
  have hd0 : ¬ ((0 + d0 : ℚ) = 0) := by
    apply hpeak
    rw [hmem]
    exact List.mem_cons_self _ _
  have hJ : 0 < (0 + d0 : ℚ) →
      (0 + d0 : ℚ) ≤ 0 + d0 ∧ ∀ y ∈ rest, 0 ≤ y := by
    intro hpos
    refine ⟨le_refl _, fun z hz => ?_⟩
    have h1 := hmono.1 z hz
    linarith
  have hnzt : ∀ y ∈ running_max_from (0 + d0) (cumsum_from (0 + d0) rest),
      y ≠ 0 := by
    intro z hz
    apply hpeak
    rw [hmem]
    exact List.mem_cons_of_mem _ hz
  have htail := drawdown_aux rest (0 + d0) (0 + d0) (le_refl _) hJ hmono.2 hnzt
  have hdd : drawdown_list (d0 :: rest) =
      (if (0 + d0 : ℚ) = 0 then
          if (0 + d0 : ℚ) - (0 + d0) = 0 then PyF.nan
          else if 0 < (0 + d0 : ℚ) - (0 + d0) then PyF.pinf else PyF.ninf
        else PyF.fin (((0 + d0 : ℚ) - (0 + d0)) / (0 + d0))) ::
      ((cumsum_from (0 + d0) rest).zip
        (running_max_from (0 + d0) (cumsum_from (0 + d0) rest))).map
        (fun cp => if cp.2 = 0 then
            if cp.1 - cp.2 = 0 then PyF.nan
            else if 0 < cp.1 - cp.2 then PyF.pinf else PyF.ninf
          else PyF.fin ((cp.1 - cp.2) / cp.2)) := rfl
  rw [hdd, if_neg hd0, sub_self, zero_div, npMinF_cons,
    foldl_pyMin_fin_zero _ htail]


/-- C7 (amended): on every accepted (non-empty) historical series with
non-decreasing entries whose cumulative-sum running peak never touches
0, `calculate_risk_metrics` succeeds and its third metric — Maximum
Drawdown, the `np.min` of `(cumulative - runningPeak)/runningPeak` over
the cumulative-sum series — has value exactly 0 (a zero running peak
must be excluded: there the division yields nan and `np.min` propagates
it). -/
theorem risk_metrics_max_drawdown_zero_on_monotone
    (sqrtQ : ℚ → ℚ) (historical_data : List ℚ) (confidence_level : ℚ)
    (hne : historical_data ≠ []) (hmono : historical_data.Sorted (· ≤ ·))
    (hpeak : ∀ y ∈ running_max (cumsum historical_data), y ≠ 0)
    (hc0 : 0 ≤ confidence_level) (hc1 : confidence_level ≤ 1) :
    ∃ ms, calculate_risk_metrics sqrtQ historical_data confidence_level = .ok ms ∧
      ms[2]?.map (fun m => (m.metric_name, m.value)) =
        some ("Maximum Drawdown", PyF.fin 0) := by
  have hconf : ¬ (confidence_level < 0 ∨ 1 < confidence_level) := by
    push_neg
    exact ⟨hc0, hc1⟩
  have hconf1 : ¬ ((1 : ℚ) < 0 ∨ (1 : ℚ) < 1) := by norm_num
  have hdd := max_drawdown_zero historical_data hne hmono hpeak
  unfold calculate_risk_metrics
  rw [if_neg hne]
  apply bind_ok_intro (npPercentile_ok hne ((1 - confidence_level) * 100))
  apply bind_ok_intro (mkRiskMetric_ok _ _ _ _ _ _ (by decide) hconf)
  apply bind_ok_intro (mkRiskMetric_ok _ _ _ _ _ _ (by decide) hconf)
  apply bind_ok_intro hdd
  apply bind_ok_intro (mkRiskMetric_ok _ _ _ _ _ _ (by decide) hconf1)
  apply bind_ok_intro (mkRiskMetric_ok _ _ _ _ _ _ (by decide) hconf)
  apply bind_ok_intro (mkRiskMetric_ok _ _ _ _ _ _ (by decide) hconf)
  apply bind_ok_intro (mkRiskMetric_ok _ _ _ _ _ _ (by decide) hconf)
  refine ⟨_, rfl, ?_⟩
  show some ((pystrip "Maximum Drawdown", PyF.fin 0) : String × PyF) =
    some ("Maximum Drawdown", PyF.fin 0)
  rw [show pystrip "Maximum Drawdown" = "Maximum Drawdown" from by decide]

theorem risk_metrics_max_drawdown_zero_witness :
  (([1, 2, 3] : List ℚ) ≠ [] ∧ ([1, 2, 3] : List ℚ).Sorted (· ≤ ·) ∧
    (∀ y ∈ running_max (cumsum [1, 2, 3]), y ≠ 0) ∧
    (0 : ℚ) ≤ 95/100 ∧ (95 : ℚ)/100 ≤ 1) ∧
  (∃ ms, calculate_risk_metrics (fun q => q) [1, 2, 3] (95/100) = .ok ms ∧
    ms[2]?.map (fun m => (m.metric_name, m.value)) =
      some ("Maximum Drawdown", PyF.fin 0)) := by
  have h1 : ([1, 2, 3] : List ℚ) ≠ [] := by simp
  have h2 : ([1, 2, 3] : List ℚ).Sorted (· ≤ ·) := by
    simp only [List.sorted_cons, List.mem_cons, List.mem_singleton]
    norm_num
  have hpk : ∀ y ∈ running_max (cumsum [1, 2, 3]), y ≠ 0 := by
    with_unfolding_all decide
  have h3 : (0 : ℚ) ≤ 95/100 := by norm_num
  have h4 : (95 : ℚ)/100 ≤ 1 := by norm_num
  exact ⟨⟨h1, h2, hpk, h3, h4⟩,
    risk_metrics_max_drawdown_zero_on_monotone (fun q => q) [1, 2, 3] (95/100)
      h1 h2 hpk h3 h4⟩

/-- C7 (counterexample to the claim as stated): the one-element series
`[0]` is non-empty and non-decreasing, yet its cumulative-sum running
peak is 0, so the drawdown division computes `0/0 = nan`, `np.min`
propagates it, and the Maximum Drawdown metric's value is nan, not 0. -/
theorem max_drawdown_nan_on_zero_running_peak :
  (([0] : List ℚ) ≠ [] ∧ ([0] : List ℚ).Sorted (· ≤ ·)) ∧
  (calculate_risk_metrics (fun q => q) [0] (95/100)).map
    (fun ms => ms[2]?.map (fun m => (m.metric_name, m.value))) =
    .ok (some ("Maximum Drawdown", PyF.nan)) ∧
  PyF.nan ≠ PyF.fin 0 := by
  refine ⟨⟨by simp, List.sorted_singleton 0⟩, ?_, by decide⟩
  with_unfolding_all rfl

/-! ## Claim C8 (sensitivity analysis: tornado ordering) -/

/-- One value of the per-variable `sensitivity_results` dict
(risk_modeler.py lines 360-364). -/
structure SensitivityEntry where
  input_values : List ℚ
  output_values : List ℚ
  range : ℚ
deriving DecidableEq

/-- `SensitivityAnalysis` (risk_modeler.py lines 137-151), the result of
`calculate_sensitivity_analysis`. -/
structure SensitivityAnalysisResult where
  base_case_value : ℚ
  sensitivity_results : List (String × SensitivityEntry)
  tornado_chart_data : List (String × ℚ)
  most_sensitive_variables : List String
  elasticity_measures : List (String × ℚ)
deriving DecidableEq

/-- `np.linspace lo hi n`: `n` evenly spaced points from `lo` to `hi`
inclusive. -/
def linspace (lo hi : ℚ) (n : ℕ) : List ℚ :=
  if n = 1 then [lo]
  else (List.range n).map (fun i => lo + (hi - lo) * i / ((n : ℚ) - 1))

/-- The per-variable body of the `calculate_sensitivity_analysis` loop
(risk_modeler.py lines 345-386), accumulating the `sensitivity_results`,
`tornado_chart_data` and `elasticity_measures` collections.  Python's
`max`/`min` of an empty outcome list is a `ValueError`; a variable
missing from the base-case inputs is a `KeyError`; a variable whose base
value is exactly 0 is skipped for the tornado and elasticity data. -/
def sensitivity_step (base_case_inputs : Params)
    (objective_function : Params → ℚ) (num_points : ℕ)
    (acc : List (String × SensitivityEntry) × List (String × ℚ) × List (String × ℚ))
    (vr : String × ℚ × ℚ) :
    Except Err (List (String × SensitivityEntry) × List (String × ℚ) × List (String × ℚ)) := do
  let test_values := linspace vr.2.1 vr.2.2 num_points
  let outcomes := test_values.map (fun tv =>
    objective_function (pset base_case_inputs vr.1 tv))
  let rng ← match outcomes.max?, outcomes.min? with
    | some mx, some mn => .ok (mx - mn)
    | _, _ => (.error .invalidArgument : Except Err ℚ)
  let sens := acc.1 ++
    [(vr.1, { input_values := test_values, output_values := outcomes, range := rng })]
  let base_input_value ← getParam base_case_inputs vr.1
  if base_input_value ≠ 0 then
    let outcome_high := objective_function
      (pset base_case_inputs vr.1 (base_input_value * (11/10)))
    let outcome_low := objective_function
      (pset base_case_inputs vr.1 (base_input_value * (9/10)))
    let tornado := acc.2.1 ++ [(vr.1, (outcome_high - outcome_low) / 2)]
    let elas := if objective_function base_case_inputs ≠ 0 then
        acc.2.2 ++ [(vr.1,
          ((outcome_high - outcome_low) / objective_function base_case_inputs) / (1/5))]
      else acc.2.2
    .ok (sens, tornado, elas)
  else
    .ok (sens, acc.2.1, acc.2.2)

/-- `calculate_sensitivity_analysis` (risk_modeler.py lines 322-400):
build the per-variable data, sort the tornado pairs by descending
absolute impact (`list.sort(key=..., reverse=True)`, a stable sort), and
take the first 5 names as the most sensitive variables. -/
def calculate_sensitivity_analysis (base_case_inputs : Params)
    (variable_ranges : List (String × ℚ × ℚ))
    (objective_function : Params → ℚ) (num_points : ℕ) :
    Except Err SensitivityAnalysisResult := do
  let acc ← variable_ranges.foldlM
    (sensitivity_step base_case_inputs objective_function num_points) ([], [], [])
  let tornado_sorted := acc.2.1.mergeSort (fun a b => decide (|b.2| ≤ |a.2|))
  .ok { base_case_value := objective_function base_case_inputs,
        sensitivity_results := acc.1,
        tornado_chart_data := tornado_sorted,
        most_sensitive_variables := (tornado_sorted.take 5).map Prod.fst,
        elasticity_measures := acc.2.2 }

/-- C8: every `SensitivityAnalysis` produced by
`calculate_sensitivity_analysis` has its tornado entries sorted by
non-increasing absolute impact, and `most_sensitive_variables` is
exactly the first 5 variable names of that ordering (all of them when
fewer than 5 exist). -/
theorem tornado_sorted_and_top_five
    (base_case_inputs : Params) (variable_ranges : List (String × ℚ × ℚ))
    (objective_function : Params → ℚ) (num_points : ℕ)
    (r : SensitivityAnalysisResult)
    (h : calculate_sensitivity_analysis base_case_inputs variable_ranges
          objective_function num_points = .ok r) :
    r.tornado_chart_data.Pairwise (fun a b => |b.2| ≤ |a.2|) ∧
    r.most_sensitive_variables = (r.tornado_chart_data.take 5).map Prod.fst := by
  unfold calculate_sensitivity_analysis at h
  rcases hacc : variable_ranges.foldlM
      (sensitivity_step base_case_inputs objective_function num_points)
      ([], [], []) with e | acc <;> rw [hacc] at h
  · exact absurd h (by simp [Except.bind, Bind.bind])
  have hr : r = ⟨objective_function base_case_inputs, acc.1,
      acc.2.1.mergeSort (fun a b => decide (|b.2| ≤ |a.2|)),
      ((acc.2.1.mergeSort (fun a b => decide (|b.2| ≤ |a.2|))).take 5).map Prod.fst,
      acc.2.2⟩ := by
    simpa [Except.bind, Bind.bind] using h.symm
  subst hr
  refine ⟨?_, rfl⟩
  have hsorted := @List.sorted_mergeSort (String × ℚ)
    (fun a b => decide (|b.2| ≤ |a.2|))
    (fun a b c hab hbc => by
      simp only [decide_eq_true_eq] at hab hbc ⊢
      exact le_trans hbc hab)
    (fun a b => by
      simpa using le_total (|b.2|) (|a.2|))
    acc.2.1
  exact hsorted.imp (fun hab => by simpa using hab)

theorem tornado_sorted_and_top_five_witness :
  calculate_sensitivity_analysis [("x", 1)] [("x", (0, 2))] cexObj 2 =
    .ok ⟨1, [("x", ⟨[0, 2], [0, 2], 2⟩)], [("x", 1/10)], ["x"], [("x", 1)]⟩ ∧
  (([("x", (1 : ℚ)/10)] : List (String × ℚ)).Pairwise (fun a b => |b.2| ≤ |a.2|) ∧
    (["x"] : List String) =
      (([("x", (1 : ℚ)/10)] : List (String × ℚ)).take 5).map Prod.fst) := by
  have h : calculate_sensitivity_analysis [("x", 1)] [("x", (0, 2))] cexObj 2 =
      .ok ⟨1, [("x", ⟨[0, 2], [0, 2], 2⟩)], [("x", 1/10)], ["x"], [("x", 1)]⟩ := by
    with_unfolding_all rfl
  exact ⟨h, tornado_sorted_and_top_five _ _ _ _ _ h⟩

end StrategySim
